import Mathlib

/-!
# Verification of the Oregon Energy Burden Dashboard analytics core

Shallow embedding of the computation layer of `src/App.jsx` (the
aggregation engine, trend classifier, geographic projector, color scale and
ranking of the dashboard), together with theorems settling the specification
claims about it.

Modelling conventions:
* JavaScript numbers are modelled as exact rationals (`ℚ`).  Where the source
  can divide by zero — which in JavaScript produces `Infinity`/`-Infinity`/
  `NaN` rather than an error — the computation is modelled on `JsVal`, a type
  of rationals extended with the three IEEE special values.
* `obj[key]?.[idx] || 0` lookups are modelled by a total lookup returning `0`
  for a missing key or an out-of-range index.
* `Array.prototype.sort` with the comparator `(a, b) => b.value - a.value` is
  a stable sort (ES2019) ordering larger values first; it is modelled by
  `List.insertionSort` with the relation `b.value ≤ a.value`, which places an
  element of the original list before all later elements of equal value —
  the same stable descending order.
-/

/-! ## JavaScript number model -/

/-- A JavaScript number: a finite value (an exact rational — binary floating
point rounding is outside the scope of this embedding) or one of the IEEE
special values `Infinity`, `-Infinity`, `NaN`. -/
inductive JsVal where
  | fin (q : ℚ)
  | inf
  | negInf
  | nan
deriving DecidableEq, Repr

/-- JavaScript addition on `JsVal`. -/
def jsAdd : JsVal → JsVal → JsVal
  | .fin a, .fin b => .fin (a + b)
  | .fin _, .inf => .inf
  | .fin _, .negInf => .negInf
  | .inf, .fin _ => .inf
  | .negInf, .fin _ => .negInf
  | .inf, .inf => .inf
  | .negInf, .negInf => .negInf
  | .inf, .negInf => .nan
  | .negInf, .inf => .nan
  | _, _ => .nan

/-- JavaScript subtraction on `JsVal`. -/
def jsSub : JsVal → JsVal → JsVal
  | .fin a, .fin b => .fin (a - b)
  | .fin _, .inf => .negInf
  | .fin _, .negInf => .inf
  | .inf, .fin _ => .inf
  | .negInf, .fin _ => .negInf
  | .inf, .negInf => .inf
  | .negInf, .inf => .negInf
  | .inf, .inf => .nan
  | .negInf, .negInf => .nan
  | _, _ => .nan

/-- JavaScript multiplication on `JsVal`. -/
def jsMul : JsVal → JsVal → JsVal
  | .fin a, .fin b => .fin (a * b)
  | .fin a, .inf => if a = 0 then .nan else if 0 < a then .inf else .negInf
  | .inf, .fin a => if a = 0 then .nan else if 0 < a then .inf else .negInf
  | .fin a, .negInf => if a = 0 then .nan else if 0 < a then .negInf else .inf
  | .negInf, .fin a => if a = 0 then .nan else if 0 < a then .negInf else .inf
  | .inf, .inf => .inf
  | .inf, .negInf => .negInf
  | .negInf, .inf => .negInf
  | .negInf, .negInf => .inf
  | _, _ => .nan

/-- JavaScript division on `JsVal`.  A nonzero finite value divided by zero
yields a signed infinity and `0 / 0` yields `NaN` (`ℚ` has no negative zero;
the zeros produced by this program are IEEE `+0`). -/
def jsDiv : JsVal → JsVal → JsVal
  | .fin a, .fin b =>
      if b = 0 then (if a = 0 then .nan else if 0 < a then .inf else .negInf)
      else .fin (a / b)
  | .fin _, .inf => .fin 0
  | .fin _, .negInf => .fin 0
  | .inf, .fin b => if 0 ≤ b then .inf else .negInf
  | .negInf, .fin b => if 0 ≤ b then .negInf else .inf
  | _, _ => .nan

/-- JavaScript comparison `x > c` against a finite constant: `NaN`
compares false. -/
def jsGtQ (x : JsVal) (c : ℚ) : Bool :=
  match x with
  | .fin a => decide (c < a)
  | .inf => true
  | .negInf => false
  | .nan => false

/-- JavaScript comparison `x < c` against a finite constant: `NaN`
compares false. -/
def jsLtQ (x : JsVal) (c : ℚ) : Bool :=
  match x with
  | .fin a => decide (a < c)
  | .inf => false
  | .negInf => true
  | .nan => false

/-- `Number.prototype.toFixed(1)` on the numeric content: round to one
decimal digit, ties away from zero toward `+∞` (per the ECMAScript
algorithm, "pick the larger n" on ties).  `Infinity` and `NaN` print as
themselves. -/
def jsToFixed1 : JsVal → JsVal
  | .fin q => .fin (⌊q * 10 + 1 / 2⌋ / 10)
  | x => x

/-- `Math.round`: round to the nearest integer, ties toward `+∞`. -/
def jsRound (q : ℚ) : ℤ := ⌊q + 1 / 2⌋

/-! ## Time-series store (src/App.jsx:285-497)

Only the series consumed by the claims are embedded; every monthly series
has exactly 21 entries (January 2024 – September 2025). -/

/-- Month labels (src/App.jsx:285-290). -/
def months : List String :=
  ["Jan 24", "Feb 24", "Mar 24", "Apr 24", "May 24", "Jun 24",
   "Jul 24", "Aug 24", "Sep 24", "Oct 24", "Nov 24", "Dec 24",
   "Jan 25", "Feb 25", "Mar 25", "Apr 25", "May 25", "Jun 25",
   "Jul 25", "Aug 25", "Sep 25"]

/-- Utility ids (src/App.jsx:292-299).  The source entries also carry
display metadata (name, short label, type, color); the computations under
verification consume only the `id` field, so the list is embedded as the
list of ids. -/
def utilities : List String := ["pge", "pac", "ipco", "nwn", "cng", "avista"]

/-- Active residential accounts per utility (src/App.jsx:312-319). -/
def accounts : String → List ℕ
  | "pge" => [822345, 824585, 825786, 826711, 828581, 829774, 830947, 832291, 831582, 833100, 834785, 835058, 835265, 837706, 838355, 839466, 839880, 840422, 840707, 841383, 841869]
  | "pac" => [520138, 519816, 520585, 521119, 521566, 522229, 522499, 523443, 523236, 523493, 523212, 523152, 523938, 524477, 525758, 526185, 526977, 527535, 527778, 528166, 528315]
  | "ipco" => [14641, 14603, 14639, 14649, 14704, 14656, 14681, 14684, 14698, 14711, 14683, 14716, 14700, 14686, 14695, 14690, 14742, 14764, 14765, 14808, 14812]
  | "nwn" => [642904, 642992, 643112, 643915, 644027, 644368, 643678, 643683, 643502, 645109, 645848, 647425, 648145, 648230, 648494, 649069, 649069, 649110, 648638, 648421, 648036]
  | "cng" => [73546, 73585, 73747, 73836, 73911, 73855, 73990, 73916, 73938, 74237, 74451, 74691, 74787, 74897, 75031, 75155, 75122, 75112, 75141, 75129, 75260]
  | "avista" => [96285, 95323, 95334, 96344, 94870, 94982, 95090, 95019, 95055, 95226, 95547, 95669, 95727, 94361, 94525, 94450, 94325, 94206, 93140, 93110, 93103]
  | _ => []

/-- Average residential bill in dollars per utility (src/App.jsx:437-444). -/
def avgBill : String → List ℕ
  | "pge" => [219, 182, 163, 152, 113, 103, 123, 158, 116, 124, 128, 197, 226, 212, 190, 158, 108, 133, 126, 139, 102]
  | "pac" => [196, 174, 166, 146, 131, 116, 136, 144, 119, 130, 139, 194, 215, 213, 175, 155, 124, 125, 146, 137, 138]
  | "ipco" => [174, 173, 148, 110, 96, 88, 109, 125, 92, 77, 115, 164, 172, 190, 157, 112, 89, 96, 120, 117, 112]
  | "nwn" => [140, 105, 110, 75, 60, 40, 28, 24, 26, 34, 70, 133, 146, 131, 113, 85, 54, 39, 31, 28, 28]
  | "cng" => [144, 115, 101, 75, 55, 35, 23, 20, 21, 32, 61, 97, 113, 116, 85, 62, 40, 28, 25, 21, 23]
  | "avista" => [104, 94, 93, 72, 55, 37, 30, 28, 30, 35, 62, 97, 104, 112, 87, 65, 46, 35, 29, 27, 28]
  | _ => []

/-- Customers in arrears per utility (src/App.jsx:332-339). -/
def arrearsCustomers : String → List ℕ
  | "pge" => [130053, 124362, 116177, 112594, 115343, 123049, 118552, 118736, 130600, 121071, 137380, 134869, 122501, 136015, 146602, 121530, 121299, 123340, 125609, 126029, 129642]
  | "pac" => [105060, 114450, 113114, 113223, 114612, 114928, 109937, 106709, 113639, 103542, 103223, 99730, 108808, 108967, 113349, 115198, 119297, 109187, 109233, 110018, 108453]
  | "ipco" => [3899, 2907, 2931, 3381, 2756, 2884, 2787, 2802, 2620, 2535, 2397, 3870, 2104, 2145, 2125, 2113, 2029, 2050, 1922, 1994, 1944]
  | "nwn" => [45351, 50964, 49647, 51203, 50216, 54138, 52718, 54789, 57007, 55356, 57337, 51517, 48660, 54496, 50248, 50388, 55870, 51119, 53545, 57725, 55982]
  | "cng" => [4825, 5465, 5570, 5446, 5612, 5687, 5739, 5355, 5976, 5252, 5085, 5580, 5318, 4996, 5727, 5453, 5563, 5455, 5317, 5543, 5779]
  | "avista" => [9204, 8901, 9631, 9593, 9676, 10156, 9594, 10231, 10240, 9429, 9868, 9461, 9249, 8769, 9790, 9789, 10418, 10405, 10152, 10802, 9996]
  | _ => []

/-- The month index the overview totals are computed at:
`const currentMonth = 20; // Sep 2025` (src/App.jsx:704). -/
def currentMonth : ℕ := 20

/-- The JavaScript lookup `obj[key]?.[idx] || 0`: `0` for a missing key or an
out-of-range index. -/
def lookupN (obj : String → List ℕ) (key : String) (idx : ℕ) : ℕ :=
  (obj key).getD idx 0

/-! ## Aggregation engine (src/App.jsx:706-785) -/

/-- `sumArray` (src/App.jsx:707): sum of a metric over all utilities at one
month index, each missing entry contributing `0`. -/
def sumArray (obj : String → List ℕ) (idx : ℕ) : ℕ :=
  utilities.foldl (fun sum u => sum + lookupN obj u idx) 0

/-- The customer-weighted average bill of `totals` (src/App.jsx:710-716),
rounded with `Math.round` and guarded to `0` when the account sum is `0`.
The source instantiates `us := utilities` and `m := currentMonth`; the list
of utilities and the month are parameters here because the claim quantifies
over both. -/
def avgBillWeighted (us : List String) (m : ℕ) : ℤ :=
  let totalAccounts : ℕ := us.foldl (fun sum u => sum + lookupN accounts u m) 0
  let weightedBillSum : ℚ :=
    us.foldl (fun sum u => sum + (lookupN accounts u m : ℚ) * (lookupN avgBill u m : ℚ)) 0
  if 0 < totalAccounts then jsRound (weightedBillSum / (totalAccounts : ℚ)) else 0

/-- `totals.avgBill` as the source computes it. -/
def totalsAvgBill : ℤ := avgBillWeighted utilities currentMonth

/-- `getWeightedAvgBillByMonth` (src/App.jsx:753-761): the unrounded
customer-weighted average bill at a month index, `0` when the account sum
is `0`; it feeds the trend series. -/
def getWeightedAvgBillByMonth (monthIdx : ℕ) : ℚ :=
  let totalAccounts : ℕ := utilities.foldl (fun sum u => sum + lookupN accounts u monthIdx) 0
  let weightedSum : ℚ :=
    utilities.foldl (fun sum u => sum + (lookupN accounts u monthIdx : ℚ) * (lookupN avgBill u monthIdx : ℚ)) 0
  if 0 < totalAccounts then weightedSum / (totalAccounts : ℚ) else 0

/-- `getChartData` (src/App.jsx:775-785): one row per month label, the value
being the all-utility sum or a single utility's entry. -/
def getChartData (selectedUtility : String) (dataObj : String → List ℕ) : List (String × ℕ) :=
  months.enum.map (fun p =>
    (p.2, if selectedUtility = "all" then sumArray dataObj p.1 else lookupN dataObj selectedUtility p.1))

/-! ## Trend classifier (src/App.jsx:669-678) -/

/-- The result of `getTrend`: a direction label and the percent change.  The
source returns `change.toFixed(1)` (a string); `change` here is its numeric
content (see `jsToFixed1`). -/
structure Trend where
  direction : String
  change : JsVal
deriving DecidableEq, Repr

/-- The last `periods` entries of a series: `data.slice(-periods)` (the guard
ensures `periods ≤ data.length`). -/
def recentWindow (data : List ℚ) (periods : ℕ) : List ℚ :=
  data.drop (data.length - periods)

/-- The `periods` entries before those: `data.slice(-periods * 2, -periods)`,
which truncates at the start of the array when `data.length < 2 * periods`
(the natural subtraction mirrors JavaScript's `max(len - 2p, 0)` clamp). -/
def priorWindow (data : List ℚ) (periods : ℕ) : List ℚ :=
  (data.take (data.length - periods)).drop (data.length - 2 * periods)

/-- `getTrend` (src/App.jsx:669-678).  `reduce((a, b) => a + b, 0)` is
`List.sum`; the divisions and comparisons follow JavaScript number semantics
via `JsVal`, since the prior mean can be `0`. -/
def getTrend (data : List ℚ) (periods : ℕ := 3) : Trend :=
  if data.length < periods + 1 then { direction := "flat", change := .fin 0 }
  else
    let recent := jsDiv (.fin (recentWindow data periods).sum) (.fin (periods : ℚ))
    let prior := jsDiv (.fin (priorWindow data periods).sum) (.fin (periods : ℚ))
    let change := jsMul (jsDiv (jsSub recent prior) prior) (.fin 100)
    { direction := if jsGtQ change 2 then "up" else if jsLtQ change (-2) then "down" else "flat",
      change := jsToFixed1 change }

/-! ## Geographic view data model (src/App.jsx:499-655) -/

/-- One monthly ZIP-level snapshot `{active, arrears, disc}`. -/
structure Snap where
  active : ℕ
  arrears : ℕ
  disc : ℕ
deriving DecidableEq, Repr

/-- A ZIP-level record of `geoZipData`: ZIP code, point location, and the
three Q2 2025 snapshots.  Each snapshot is an `Option` because the source
accesses them with the optional-chaining `d[geoMonth]?.`. -/
structure GeoRecord where
  zip : String
  lat : ℚ
  lng : ℚ
  apr : Option Snap
  may : Option Snap
  jun : Option Snap
deriving DecidableEq, Repr

/-- The three reporting-period keys of the geographic view. -/
inductive GeoMonth where
  | apr
  | may
  | jun
deriving DecidableEq, Repr

/-- The dynamic snapshot lookup `d[geoMonth]`. -/
def GeoRecord.snap (d : GeoRecord) : GeoMonth → Option Snap
  | .apr => d.apr
  | .may => d.may
  | .jun => d.jun

/-- The four selectable geographic metrics (keys of `geoMetricConfig`,
src/App.jsx:645-650). -/
inductive GeoMetric where
  | arrears_rate
  | disc_rate
  | arrears_count
  | disconnections
deriving DecidableEq, Repr

/-- A named rectangular bounding box of `geoRegions` (src/App.jsx:625-633). -/
structure Region where
  name : String
  latMin : ℚ
  latMax : ℚ
  lngMin : ℚ
  lngMax : ℚ
deriving DecidableEq, Repr

/-- The region catalog `geoRegions` (src/App.jsx:625-633), a key-indexed
object lookup: `none` for an unknown key. -/
def geoRegions : String → Option Region
  | "statewide" => some ⟨"🗺️ Entire State", 41.95, 46.30, -124.60, -116.45⟩
  | "portland" => some ⟨"Portland Metro", 45.30, 45.75, -123.15, -122.25⟩
  | "salem" => some ⟨"Salem/Albany", 44.10, 45.30, -123.85, -122.35⟩
  | "southern" => some ⟨"Southern Oregon", 41.95, 43.70, -124.20, -120.80⟩
  | "central" => some ⟨"Central Oregon", 43.40, 45.00, -122.10, -119.70⟩
  | "coast" => some ⟨"Oregon Coast", 44.10, 46.30, -124.25, -123.30⟩
  | "eastern" => some ⟨"Eastern Oregon", 41.95, 46.05, -120.10, -116.85⟩
  | _ => none

/-! ## ZIP-level data `geoZipData` (src/App.jsx:501-623) -/

/-- PGE ZIP records (src/App.jsx:502-528). -/
def pgeZips : List GeoRecord := [
  ⟨"97003", 45.527, -122.887, some ⟨11334, 1862, 69⟩, some ⟨11323, 1821, 84⟩, some ⟨11325, 1941, 68⟩⟩,
  ⟨"97005", 45.492, -122.791, some ⟨12929, 2349, 110⟩, some ⟨12918, 2642, 116⟩, some ⟨12921, 2626, 69⟩⟩,
  ⟨"97006", 45.532, -122.849, some ⟨19823, 3084, 96⟩, some ⟨20014, 2912, 145⟩, some ⟨20011, 2963, 76⟩⟩,
  ⟨"97007", 45.47, -122.846, some ⟨19861, 1923, 62⟩, some ⟨19886, 1955, 56⟩, some ⟨19906, 1993, 50⟩⟩,
  ⟨"97008", 45.457, -122.789, some ⟨11967, 1850, 73⟩, some ⟨11968, 1813, 86⟩, some ⟨11966, 1860, 50⟩⟩,
  ⟨"97015", 45.403, -122.549, some ⟨9307, 1538, 61⟩, some ⟨9307, 1563, 82⟩, some ⟨9302, 1611, 43⟩⟩,
  ⟨"97030", 45.506, -122.437, some ⟨15700, 3428, 168⟩, some ⟨15696, 3363, 166⟩, some ⟨15701, 3522, 123⟩⟩,
  ⟨"97045", 45.358, -122.579, some ⟨22990, 2950, 108⟩, some ⟨22985, 3071, 113⟩, some ⟨22992, 2679, 88⟩⟩,
  ⟨"97080", 45.496, -122.427, some ⟨17047, 2484, 79⟩, some ⟨17074, 2579, 107⟩, some ⟨17099, 2585, 75⟩⟩,
  ⟨"97086", 45.448, -122.52, some ⟨13969, 2142, 90⟩, some ⟨13965, 2054, 87⟩, some ⟨13998, 2133, 70⟩⟩,
  ⟨"97123", 45.462, -122.975, some ⟨19636, 2101, 110⟩, some ⟨19682, 1922, 115⟩, some ⟨19704, 2082, 68⟩⟩,
  ⟨"97124", 45.535, -122.957, some ⟨21879, 2520, 114⟩, some ⟨21876, 2492, 119⟩, some ⟨21879, 2592, 70⟩⟩,
  ⟨"97202", 45.483, -122.641, some ⟨20912, 3038, 74⟩, some ⟨20914, 2891, 93⟩, some ⟨20916, 2955, 58⟩⟩,
  ⟨"97206", 45.474, -122.6, some ⟨22587, 3284, 79⟩, some ⟨22577, 3280, 99⟩, some ⟨22584, 3422, 59⟩⟩,
  ⟨"97209", 45.535, -122.685, some ⟨16511, 3774, 117⟩, some ⟨16514, 3758, 89⟩, some ⟨16501, 3869, 54⟩⟩,
  ⟨"97222", 45.442, -122.62, some ⟨16093, 2890, 107⟩, some ⟨16102, 2831, 100⟩, some ⟨16117, 2381, 57⟩⟩,
  ⟨"97223", 45.441, -122.782, some ⟨21762, 3201, 108⟩, some ⟨21753, 3203, 123⟩, some ⟨21743, 3322, 97⟩⟩,
  ⟨"97229", 45.558, -122.819, some ⟨28913, 2634, 102⟩, some ⟨28932, 2627, 85⟩, some ⟨28952, 2311, 60⟩⟩,
  ⟨"97230", 45.56, -122.5, some ⟨15846, 2821, 165⟩, some ⟨15862, 2613, 136⟩, some ⟨15844, 2785, 78⟩⟩,
  ⟨"97233", 45.517, -122.5, some ⟨15703, 4343, 229⟩, some ⟨15697, 4228, 233⟩, some ⟨15684, 4428, 164⟩⟩,
  ⟨"97236", 45.482, -122.51, some ⟨14294, 3208, 183⟩, some ⟨14272, 3061, 148⟩, some ⟨14289, 3192, 116⟩⟩,
  ⟨"97266", 45.482, -122.557, some ⟨13597, 2858, 96⟩, some ⟨13602, 2919, 102⟩, some ⟨13607, 3045, 99⟩⟩,
  ⟨"97301", 44.932, -122.999, some ⟨20152, 4868, 227⟩, some ⟨20175, 4753, 242⟩, some ⟨20315, 4846, 158⟩⟩,
  ⟨"97302", 44.908, -123.034, some ⟨17894, 2264, 114⟩, some ⟨17888, 2142, 109⟩, some ⟨17891, 2225, 52⟩⟩,
  ⟨"97305", 44.978, -122.948, some ⟨16305, 3903, 163⟩, some ⟨16301, 3685, 200⟩, some ⟨16308, 3893, 119⟩⟩
]

/-- NW Natural ZIP records (src/App.jsx:529-549). -/
def nwnZips : List GeoRecord := [
  ⟨"97003", 45.527, -122.887, some ⟨7027, 665, 29⟩, some ⟨7032, 709, 0⟩, some ⟨7039, 689, 32⟩⟩,
  ⟨"97006", 45.532, -122.849, some ⟨9418, 703, 26⟩, some ⟨9385, 722, 12⟩, some ⟨9424, 713, 21⟩⟩,
  ⟨"97007", 45.47, -122.846, some ⟨14541, 698, 25⟩, some ⟨14539, 767, 15⟩, some ⟨14554, 758, 40⟩⟩,
  ⟨"97045", 45.358, -122.579, some ⟨11607, 1074, 21⟩, some ⟨11585, 1092, 8⟩, some ⟨11593, 1041, 41⟩⟩,
  ⟨"97080", 45.496, -122.427, some ⟨11607, 1161, 43⟩, some ⟨4411, 1225, 0⟩, some ⟨11647, 854, 33⟩⟩,
  ⟨"97086", 45.448, -122.52, some ⟨9643, 859, 19⟩, some ⟨9566, 841, 18⟩, some ⟨9640, 803, 16⟩⟩,
  ⟨"97123", 45.462, -122.975, some ⟨12736, 623, 31⟩, some ⟨12742, 1360, 49⟩, some ⟨12763, 932, 21⟩⟩,
  ⟨"97124", 45.535, -122.957, some ⟨10799, 428, 41⟩, some ⟨10802, 658, 27⟩, some ⟨10812, 645, 20⟩⟩,
  ⟨"97202", 45.483, -122.641, some ⟨11785, 893, 31⟩, some ⟨5220, 989, 0⟩, some ⟨11774, 730, 9⟩⟩,
  ⟨"97206", 45.474, -122.6, some ⟨14103, 1339, 41⟩, some ⟨2655, 1459, 0⟩, some ⟨14042, 941, 6⟩⟩,
  ⟨"97211", 45.576, -122.638, some ⟨10561, 760, 49⟩, some ⟨10560, 971, 28⟩, some ⟨10544, 850, 17⟩⟩,
  ⟨"97217", 45.591, -122.693, some ⟨10683, 962, 33⟩, some ⟨10674, 1129, 31⟩, some ⟨10665, 1020, 39⟩⟩,
  ⟨"97222", 45.442, -122.62, some ⟨8165, 856, 28⟩, some ⟨7762, 871, 5⟩, some ⟨8133, 838, 5⟩⟩,
  ⟨"97223", 45.441, -122.782, some ⟨13106, 820, 22⟩, some ⟨13085, 849, 5⟩, some ⟨13124, 809, 34⟩⟩,
  ⟨"97229", 45.558, -122.819, some ⟨21977, 1250, 44⟩, some ⟨21986, 1292, 26⟩, some ⟨22031, 1286, 31⟩⟩,
  ⟨"97230", 45.56, -122.5, some ⟨9478, 1103, 30⟩, some ⟨8478, 1152, 2⟩, some ⟨9467, 992, 25⟩⟩,
  ⟨"97301", 44.932, -122.999, some ⟨8990, 997, 61⟩, some ⟨8975, 1102, 57⟩, some ⟨8983, 1275, 24⟩⟩,
  ⟨"97302", 44.908, -123.034, some ⟨10458, 680, 33⟩, some ⟨10426, 733, 2⟩, some ⟨10451, 702, 28⟩⟩,
  ⟨"97305", 44.978, -122.948, some ⟨7063, 665, 38⟩, some ⟨7038, 695, 24⟩, some ⟨7046, 674, 46⟩⟩
]

/-- Avista ZIP records (src/App.jsx:550-562). -/
def avistaZips : List GeoRecord := [
  ⟨"97470", 43.22, -123.35, some ⟨3328, 527, 4⟩, some ⟨3323, 550, 3⟩, some ⟨3320, 570, 2⟩⟩,
  ⟨"97471", 43.28, -123.38, some ⟨5195, 430, 6⟩, some ⟨5190, 579, 5⟩, some ⟨5180, 565, 3⟩⟩,
  ⟨"97502", 42.3, -122.92, some ⟨9199, 1116, 11⟩, some ⟨9162, 1401, 10⟩, some ⟨9144, 1357, 6⟩⟩,
  ⟨"97503", 42.38, -122.83, some ⟨6404, 697, 8⟩, some ⟨6406, 717, 7⟩, some ⟨6401, 689, 4⟩⟩,
  ⟨"97520", 42.2, -122.7, some ⟨13106, 997, 16⟩, some ⟨13097, 1122, 14⟩, some ⟨13115, 1141, 9⟩⟩,
  ⟨"97524", 42.45, -122.85, some ⟨7039, 442, 8⟩, some ⟨7050, 468, 7⟩, some ⟨7057, 486, 5⟩⟩,
  ⟨"97527", 42.42, -123.33, some ⟨6332, 771, 8⟩, some ⟨6328, 804, 7⟩, some ⟨6313, 796, 4⟩⟩,
  ⟨"97530", 42.12, -122.9, some ⟨5544, 537, 7⟩, some ⟨5535, 539, 6⟩, some ⟨5515, 534, 4⟩⟩,
  ⟨"97601", 42.22, -121.75, some ⟨6433, 803, 8⟩, some ⟨6407, 783, 7⟩, some ⟨6362, 857, 4⟩⟩,
  ⟨"97603", 42.18, -121.72, some ⟨8852, 990, 11⟩, some ⟨8816, 1016, 9⟩, some ⟨8801, 986, 6⟩⟩,
  ⟨"97850", 45.33, -118.08, some ⟨4853, 314, 6⟩, some ⟨4857, 317, 5⟩, some ⟨4851, 334, 3⟩⟩
]

/-- Cascade Natural Gas ZIP records (src/App.jsx:563-575). -/
def cngZips : List GeoRecord := [
  ⟨"97701", 44.06, -121.31, some ⟨10842, 576, 2⟩, some ⟨10821, 621, 14⟩, some ⟨10857, 625, 1⟩⟩,
  ⟨"97702", 43.99, -121.35, some ⟨14441, 801, 8⟩, some ⟨14446, 844, 18⟩, some ⟨14458, 798, 3⟩⟩,
  ⟨"97703", 44.12, -121.29, some ⟨10056, 459, 5⟩, some ⟨10056, 446, 3⟩, some ⟨10048, 442, 2⟩⟩,
  ⟨"97707", 43.88, -121.5, some ⟨3976, 82, 1⟩, some ⟨3983, 101, 0⟩, some ⟨3987, 110, 1⟩⟩,
  ⟨"97741", 44.59, -121.13, some ⟨1598, 171, 3⟩, some ⟨1599, 176, 6⟩, some ⟨1592, 158, 0⟩⟩,
  ⟨"97754", 44.27, -120.9, some ⟨2989, 356, 2⟩, some ⟨3004, 367, 3⟩, some ⟨2996, 352, 7⟩⟩,
  ⟨"97756", 44.27, -121.17, some ⟨9870, 524, 5⟩, some ⟨9879, 540, 11⟩, some ⟨9896, 535, 2⟩⟩,
  ⟨"97801", 45.67, -118.78, some ⟨4896, 524, 17⟩, some ⟨4883, 521, 23⟩, some ⟨4859, 536, 9⟩⟩,
  ⟨"97814", 44.78, -117.83, some ⟨3511, 341, 5⟩, some ⟨3509, 354, 6⟩, some ⟨3494, 314, 6⟩⟩,
  ⟨"97838", 45.83, -119.17, some ⟨4271, 477, 8⟩, some ⟨4262, 506, 12⟩, some ⟨4261, 522, 4⟩⟩,
  ⟨"97914", 44.05, -116.97, some ⟨2778, 334, 16⟩, some ⟨2763, 324, 11⟩, some ⟨2746, 317, 11⟩⟩
]

/-- Pacific Power ZIP records (src/App.jsx:576-612). -/
def pacZips : List GeoRecord := [
  ⟨"97756", 44.27, -121.17, some ⟨14291, 2764, 31⟩, some ⟨14300, 2794, 82⟩, some ⟨14313, 2690, 57⟩⟩,
  ⟨"97471", 43.28, -123.38, some ⟨10913, 1963, 24⟩, some ⟨10899, 2645, 45⟩, some ⟨10900, 1960, 74⟩⟩,
  ⟨"97211", 45.576, -122.638, some ⟨15281, 2477, 34⟩, some ⟨15342, 2547, 80⟩, some ⟨15348, 2348, 48⟩⟩,
  ⟨"97351", 44.87, -123.02, some ⟨4098, 1008, 17⟩, some ⟨4113, 1122, 37⟩, some ⟨4102, 1037, 22⟩⟩,
  ⟨"97701", 44.06, -121.31, some ⟨14440, 2592, 21⟩, some ⟨14497, 2508, 61⟩, some ⟨14518, 2446, 26⟩⟩,
  ⟨"97520", 42.2, -122.7, some ⟨2030, 350, 2⟩, some ⟨2032, 346, 8⟩, some ⟨2040, 330, 4⟩⟩,
  ⟨"97527", 42.42, -123.33, some ⟨16394, 3526, 48⟩, some ⟨16375, 3445, 134⟩, some ⟨16399, 3175, 68⟩⟩,
  ⟨"97530", 42.12, -122.9, some ⟨4056, 706, 4⟩, some ⟨4044, 684, 31⟩, some ⟨4043, 675, 10⟩⟩,
  ⟨"97525", 42.43, -123.0, some ⟨2542, 631, 9⟩, some ⟨2549, 597, 17⟩, some ⟨2543, 578, 14⟩⟩,
  ⟨"97212", 45.546, -122.643, some ⟨11954, 1682, 17⟩, some ⟨11978, 1704, 56⟩, some ⟨11991, 1619, 32⟩⟩,
  ⟨"97504", 42.35, -122.85, some ⟨21326, 3898, 70⟩, some ⟨21335, 5239, 108⟩, some ⟨21359, 3808, 213⟩⟩,
  ⟨"97470", 43.22, -123.35, some ⟨9661, 2539, 30⟩, some ⟨9652, 2453, 124⟩, some ⟨9641, 2369, 43⟩⟩,
  ⟨"97138", 46.0, -123.92, some ⟨7030, 1254, 28⟩, some ⟨7025, 1252, 42⟩, some ⟨7032, 1254, 23⟩⟩,
  ⟨"97601", 42.22, -121.75, some ⟨11714, 2576, 67⟩, some ⟨11703, 2785, 69⟩, some ⟨11720, 2538, 151⟩⟩,
  ⟨"97540", 42.12, -122.82, some ⟨3785, 683, 8⟩, some ⟨3818, 672, 39⟩, some ⟨3800, 659, 7⟩⟩,
  ⟨"97031", 45.68, -121.52, some ⟨6684, 904, 12⟩, some ⟨6687, 927, 18⟩, some ⟨6675, 854, 20⟩⟩,
  ⟨"97217", 45.591, -122.693, some ⟨5907, 1068, 15⟩, some ⟨5921, 1107, 35⟩, some ⟨5965, 1002, 41⟩⟩,
  ⟨"97338", 44.97, -123.35, some ⟨9557, 1986, 11⟩, some ⟨9574, 1991, 40⟩, some ⟨9537, 1827, 30⟩⟩,
  ⟨"97367", 44.88, -124.02, some ⟨7553, 1296, 19⟩, some ⟨7578, 1291, 45⟩, some ⟨7566, 1243, 23⟩⟩,
  ⟨"97524", 42.45, -122.85, some ⟨6983, 1664, 31⟩, some ⟨6999, 1584, 82⟩, some ⟨7016, 1504, 23⟩⟩,
  ⟨"97501", 42.33, -122.87, some ⟨19469, 4844, 90⟩, some ⟨19520, 4640, 178⟩, some ⟨19540, 4340, 201⟩⟩,
  ⟨"97703", 44.12, -121.29, some ⟨14183, 1178, 11⟩, some ⟨14206, 1486, 24⟩, some ⟨14247, 1186, 18⟩⟩,
  ⟨"97321", 44.65, -123.07, some ⟨12830, 2183, 24⟩, some ⟨12834, 2274, 57⟩, some ⟨12879, 1930, 75⟩⟩,
  ⟨"97333", 44.55, -123.25, some ⟨9981, 1636, 23⟩, some ⟨10042, 1731, 61⟩, some ⟨10139, 1630, 35⟩⟩,
  ⟨"97702", 43.99, -121.35, some ⟨20298, 2867, 26⟩, some ⟨20390, 2853, 89⟩, some ⟨20424, 2693, 70⟩⟩,
  ⟨"97330", 44.58, -123.27, some ⟨14260, 1892, 23⟩, some ⟨14290, 2008, 35⟩, some ⟨14531, 1811, 56⟩⟩,
  ⟨"97754", 44.27, -120.9, some ⟨7879, 1724, 30⟩, some ⟨7879, 1793, 51⟩, some ⟨7878, 1679, 55⟩⟩,
  ⟨"97526", 42.45, -123.32, some ⟨16814, 3630, 40⟩, some ⟨16806, 3852, 62⟩, some ⟨16870, 3286, 158⟩⟩,
  ⟨"97801", 45.67, -118.78, some ⟨8943, 2282, 30⟩, some ⟨8962, 2184, 93⟩, some ⟨8956, 2094, 48⟩⟩,
  ⟨"97503", 42.38, -122.83, some ⟨4668, 1469, 15⟩, some ⟨4689, 1404, 68⟩, some ⟨4686, 1299, 29⟩⟩,
  ⟨"97322", 44.63, -123.1, some ⟨14414, 3771, 35⟩, some ⟨14445, 3675, 129⟩, some ⟨14433, 3389, 58⟩⟩,
  ⟨"97502", 42.3, -122.92, some ⟨12616, 2597, 31⟩, some ⟨12609, 2456, 81⟩, some ⟨12626, 2326, 99⟩⟩,
  ⟨"97603", 42.18, -121.72, some ⟨14095, 3479, 67⟩, some ⟨14100, 3426, 122⟩, some ⟨14087, 3297, 110⟩⟩,
  ⟨"97103", 46.18, -123.83, some ⟨8590, 1417, 11⟩, some ⟨8609, 1611, 33⟩, some ⟨8619, 1461, 41⟩⟩,
  ⟨"97213", 45.538, -122.6, some ⟨11324, 1462, 13⟩, some ⟨11400, 1759, 42⟩, some ⟨11384, 1542, 25⟩⟩
]

/-- Idaho Power ZIP records (src/App.jsx:613-622). -/
def ipcoZips : List GeoRecord := [
  ⟨"97834", 44.98, -117.17, some ⟨661, 34, 0⟩, some ⟨660, 48, 0⟩, some ⟨661, 36, 0⟩⟩,
  ⟨"97870", 44.77, -117.18, some ⟨434, 23, 0⟩, some ⟨436, 32, 0⟩, some ⟨437, 31, 1⟩⟩,
  ⟨"97901", 43.88, -117.03, some ⟨377, 36, 0⟩, some ⟨379, 36, 1⟩, some ⟨377, 40, 1⟩⟩,
  ⟨"97907", 44.15, -117.42, some ⟨378, 43, 1⟩, some ⟨382, 51, 0⟩, some ⟨383, 42, 2⟩⟩,
  ⟨"97910", 43.12, -117.02, some ⟨368, 30, 1⟩, some ⟨382, 34, 1⟩, some ⟨382, 27, 0⟩⟩,
  ⟨"97913", 44.02, -116.97, some ⟨2274, 388, 10⟩, some ⟨2294, 366, 6⟩, some ⟨2289, 356, 7⟩⟩,
  ⟨"97914", 44.05, -116.97, some ⟨7106, 1223, 41⟩, some ⟨7117, 1171, 22⟩, some ⟨7132, 1110, 35⟩⟩,
  ⟨"97918", 43.97, -117.25, some ⟨1993, 270, 18⟩, some ⟨1996, 238, 9⟩, some ⟨2003, 241, 10⟩⟩
]


/-- The object lookup `geoZipData[uk]`: the record list per utility key,
empty for an unknown key (the source guards with `if (geoZipData[uk])`). -/
def geoZipData : String → List GeoRecord
  | "pge" => pgeZips
  | "nwn" => nwnZips
  | "avista" => avistaZips
  | "cng" => cngZips
  | "pac" => pacZips
  | "ipco" => ipcoZips
  | _ => []

/-! ## Geographic pipeline (src/App.jsx:2238-2287, 2430) -/

/-- Canvas width `mapWidth = 850` (src/App.jsx:2240). -/
def mapWidth : ℚ := 850

/-- Canvas height `mapHeight = 520` (src/App.jsx:2240). -/
def mapHeight : ℚ := 520

/-- `getGeoMetricValue` (src/App.jsx:2245-2255): the selected metric of a
record's snapshot; `0` when the snapshot is missing or its `active` count is
falsy (`if (!d || !d.active) return 0`), and the rates guard `d.active > 0`
again before dividing. -/
def getGeoMetricValue (d : GeoRecord) (month : GeoMonth) (metric : GeoMetric) : ℚ :=
  match d.snap month with
  | none => 0
  | some s =>
    if s.active = 0 then 0
    else
      match metric with
      | .arrears_rate => if 0 < s.active then (s.arrears : ℚ) / (s.active : ℚ) * 100 else 0
      | .disc_rate => if 0 < s.active then (s.disc : ℚ) / (s.active : ℚ) * 100 else 0
      | .arrears_count => (s.arrears : ℚ)
      | .disconnections => (s.disc : ℚ)

/-- `utilKeys` (src/App.jsx:2258): all six utility keys for the `"all"`
filter, otherwise the selected one. -/
def utilKeysFor (geoUtility : String) : List String :=
  if geoUtility = "all" then ["pge", "nwn", "avista", "cng", "pac", "ipco"] else [geoUtility]

/-- The record-inclusion test `d[geoMonth]?.active > 20` (src/App.jsx:2262):
false when the snapshot is absent (`undefined > 20` is false). -/
def activeOver20 (d : GeoRecord) (month : GeoMonth) : Bool :=
  match d.snap month with
  | some s => 20 < s.active
  | none => false

/-- An element of `allGeoData`: the spread `{ ...d, utility: uk, value: … }`
(src/App.jsx:2263) is modelled by nesting the record in a `point` field next
to the two added fields. -/
structure GeoDatum where
  point : GeoRecord
  utility : String
  value : ℚ
deriving DecidableEq, Repr

/-- The `allGeoData` accumulation loop before sorting (src/App.jsx:2257-2267):
for each selected utility key, every record whose selected-month snapshot has
more than 20 active accounts, tagged with its utility and metric value. -/
def allGeoDataUnsorted (geoUtility : String) (geoMonth : GeoMonth) (geoMetric : GeoMetric) :
    List GeoDatum :=
  (utilKeysFor geoUtility).flatMap fun uk =>
    ((geoZipData uk).filter (fun d => activeOver20 d geoMonth)).map fun d =>
      ⟨d, uk, getGeoMetricValue d geoMonth geoMetric⟩

/-- The order imposed by `allGeoData.sort((a, b) => b.value - a.value)`
(src/App.jsx:2268): larger metric values first. -/
def valueDesc (a b : GeoDatum) : Prop := b.value ≤ a.value

instance : DecidableRel valueDesc := fun a b => inferInstanceAs (Decidable (b.value ≤ a.value))

instance : IsTotal GeoDatum valueDesc := ⟨fun a b => le_total b.value a.value⟩

instance : IsTrans GeoDatum valueDesc := ⟨fun _ _ _ h1 h2 => le_trans h2 h1⟩

/-- `allGeoData` after the in-place `sort` (src/App.jsx:2268): the stable
descending sort by `value` (see the header on sort stability). -/
def allGeoData (geoUtility : String) (geoMonth : GeoMonth) (geoMetric : GeoMetric) :
    List GeoDatum :=
  List.insertionSort valueDesc (allGeoDataUnsorted geoUtility geoMonth geoMetric)

/-- `xScale` (src/App.jsx:2242).  Every catalog region has `lngMax ≠ lngMin`,
so the `ℚ` division agrees with JavaScript; the degenerate-region behaviour
is modelled separately by `xScaleJs`. -/
def xScale (b : Region) (lng : ℚ) : ℚ :=
  (lng - b.lngMin) / (b.lngMax - b.lngMin) * (mapWidth - 60) + 30

/-- `yScale` (src/App.jsx:2243): the latitude axis is inverted. -/
def yScale (b : Region) (lat : ℚ) : ℚ :=
  mapHeight - 30 - (lat - b.latMin) / (b.latMax - b.latMin) * (mapHeight - 60)

/-- `xScale` under JavaScript number semantics, for regions where the
denominator may be zero (same source line as `xScale`). -/
def xScaleJs (b : Region) (lng : ℚ) : JsVal :=
  jsAdd (jsMul (jsDiv (jsSub (.fin lng) (.fin b.lngMin)) (jsSub (.fin b.lngMax) (.fin b.lngMin)))
    (.fin (mapWidth - 60))) (.fin 30)

/-- `yScale` under JavaScript number semantics (same source line as
`yScale`). -/
def yScaleJs (b : Region) (lat : ℚ) : JsVal :=
  jsSub (jsSub (.fin mapHeight) (.fin 30))
    (jsMul (jsDiv (jsSub (.fin lat) (.fin b.latMin)) (jsSub (.fin b.latMax) (.fin b.latMin)))
      (.fin (mapHeight - 60)))

/-- The bounding-box filter of `filteredGeoData` (src/App.jsx:2271):
`d.lat >= latMin && d.lat <= latMax && d.lng >= lngMin && d.lng <= lngMax`. -/
def inBoundsB (b : Region) (d : GeoDatum) : Bool :=
  decide (b.latMin ≤ d.point.lat) && decide (d.point.lat ≤ b.latMax) &&
  decide (b.lngMin ≤ d.point.lng) && decide (d.point.lng ≤ b.lngMax)

/-- A projected point: the spread `{ ...d, x: xScale(d.lng), y: yScale(d.lat) }`
(src/App.jsx:2272), modelled by nesting the datum next to the two added
coordinates. -/
structure ProjPoint where
  datum : GeoDatum
  x : ℚ
  y : ℚ
deriving DecidableEq, Repr

/-- `filteredGeoData` (src/App.jsx:2270-2272): the sorted data restricted to
the active region's bounding box and given canvas coordinates. -/
def filteredGeoData (b : Region) (geoUtility : String) (geoMonth : GeoMonth)
    (geoMetric : GeoMetric) : List ProjPoint :=
  ((allGeoData geoUtility geoMonth geoMetric).filter (inBoundsB b)).map fun d =>
    ⟨d, xScale b d.point.lng, yScale b d.point.lat⟩

/-- `geoValues` (src/App.jsx:2274): the strictly positive metric values of
`allGeoData` — no region filtering is involved. -/
def geoValues (geoUtility : String) (geoMonth : GeoMonth) (geoMetric : GeoMetric) : List ℚ :=
  ((allGeoData geoUtility geoMonth geoMetric).map (fun d => d.value)).filter (fun v => 0 < v)

/-- `geoMinVal` (src/App.jsx:2275): `Math.min(...geoValues)`, `0` when
`geoValues` is empty. -/
def geoMinVal (geoUtility : String) (geoMonth : GeoMonth) (geoMetric : GeoMetric) : ℚ :=
  match geoValues geoUtility geoMonth geoMetric with
  | [] => 0
  | v :: vs => vs.foldl min v

/-- `geoMaxVal` (src/App.jsx:2276): `Math.max(...geoValues)`, `1` when
`geoValues` is empty. -/
def geoMaxVal (geoUtility : String) (geoMonth : GeoMonth) (geoMetric : GeoMetric) : ℚ :=
  match geoValues geoUtility geoMonth geoMetric with
  | [] => 1
  | v :: vs => vs.foldl max v

/-- The normalization step of `getGeoColor` (src/App.jsx:2279):
`t = geoMaxVal > geoMinVal ? (value - geoMinVal) / (geoMaxVal - geoMinVal) : 0`.
No clamping is applied. -/
def getGeoT (geoUtility : String) (geoMonth : GeoMonth) (geoMetric : GeoMetric) (value : ℚ) : ℚ :=
  if geoMinVal geoUtility geoMonth geoMetric < geoMaxVal geoUtility geoMonth geoMetric then
    (value - geoMinVal geoUtility geoMonth geoMetric) /
      (geoMaxVal geoUtility geoMonth geoMetric - geoMinVal geoUtility geoMonth geoMetric)
  else 0

/-- The lightness computed by `getGeoColor` (src/App.jsx:2280):
`l = 82 - t * 42`. -/
def geoLightness (geoUtility : String) (geoMonth : GeoMonth) (geoMetric : GeoMetric)
    (value : ℚ) : ℚ :=
  82 - getGeoT geoUtility geoMonth geoMetric value * 42

/-- The per-utility hue and saturation of `getGeoColor`
(src/App.jsx:2281-2286). -/
def geoHueSat (util : String) : ℚ × ℚ :=
  if util = "pge" then (142, 65)
  else if util = "nwn" then (217, 80)
  else if util = "avista" then (25, 85)
  else if util = "cng" then (271, 70)
  else if util = "ipco" then (188, 85)
  else (0, 70)

/-- `getGeoColor` (src/App.jsx:2278-2287) as an `hsl` triple. -/
def getGeoColor (geoUtility : String) (geoMonth : GeoMonth) (geoMetric : GeoMetric)
    (value : ℚ) (util : String) : ℚ × ℚ × ℚ :=
  ((geoHueSat util).1, (geoHueSat util).2, geoLightness geoUtility geoMonth geoMetric value)

/-- The ranked sidebar list (src/App.jsx:2430):
`(isStatewide ? allGeoData : filteredGeoData).slice(0, 50)`; `slice` copies
and does not mutate its receiver. -/
def rankingTop50 (isStatewide : Bool) (b : Region) (geoUtility : String) (geoMonth : GeoMonth)
    (geoMetric : GeoMetric) : List GeoDatum :=
  if isStatewide then (allGeoData geoUtility geoMonth geoMetric).take 50
  else ((filteredGeoData b geoUtility geoMonth geoMetric).map (fun p => p.datum)).take 50

/-! ## Helper lemmas -/

lemma foldl_add_eq_sum {α M : Type*} [AddCommMonoid M] (f : α → M) :
    ∀ (l : List α) (a : M), l.foldl (fun s u => s + f u) a = a + (l.map f).sum
  | [], a => by simp
  | x :: xs, a => by
    rw [List.foldl_cons, foldl_add_eq_sum f xs (a + f x)]
    simp [add_assoc]


lemma foldl_min_mem {α : Type*} [LinearOrder α] :
    ∀ (vs : List α) (v : α), vs.foldl min v ∈ v :: vs
  | [], v => by simp
  | w :: ws, v => by
    simp only [List.foldl_cons]
    have h := foldl_min_mem ws (min v w)
    rcases List.mem_cons.mp h with h1 | h1
    · rw [h1]
      rcases min_choice v w with hc | hc <;> rw [hc] <;> simp
    · exact List.mem_cons.mpr (Or.inr (List.mem_cons.mpr (Or.inr h1)))

lemma foldl_min_le {α : Type*} [LinearOrder α] :
    ∀ (vs : List α) (v : α), ∀ w ∈ v :: vs, vs.foldl min v ≤ w
  | [], v => by simp
  | u :: us, v => by
    intro w hw
    simp only [List.foldl_cons]
    have ih := foldl_min_le us (min v u)
    rcases List.mem_cons.mp hw with h1 | h1
    · subst h1
      exact le_trans (ih _ (List.mem_cons_self _ _)) (min_le_left _ _)
    · rcases List.mem_cons.mp h1 with h2 | h2
      · subst h2
        exact le_trans (ih _ (List.mem_cons_self _ _)) (min_le_right _ _)
      · exact ih w (List.mem_cons.mpr (Or.inr h2))

lemma foldl_max_mem {α : Type*} [LinearOrder α] :
    ∀ (vs : List α) (v : α), vs.foldl max v ∈ v :: vs
  | [], v => by simp
  | w :: ws, v => by
    simp only [List.foldl_cons]
    have h := foldl_max_mem ws (max v w)
    rcases List.mem_cons.mp h with h1 | h1
    · rw [h1]
      rcases max_choice v w with hc | hc <;> rw [hc] <;> simp
    · exact List.mem_cons.mpr (Or.inr (List.mem_cons.mpr (Or.inr h1)))

lemma le_foldl_max {α : Type*} [LinearOrder α] :
    ∀ (vs : List α) (v : α), ∀ w ∈ v :: vs, w ≤ vs.foldl max v
  | [], v => by simp
  | u :: us, v => by
    intro w hw
    simp only [List.foldl_cons]
    have ih := le_foldl_max us (max v u)
    rcases List.mem_cons.mp hw with h1 | h1
    · subst h1
      exact le_trans (le_max_left _ _) (ih _ (List.mem_cons_self _ _))
    · rcases List.mem_cons.mp h1 with h2 | h2
      · subst h2
        exact le_trans (le_max_right _ _) (ih _ (List.mem_cons_self _ _))
      · exact ih w (List.mem_cons.mpr (Or.inr h2))

/-! ## Claim theorems -/

/-- Claim C1: for every month index and every set of utilities, the
customer-weighted average bill equals `Σ(accounts_u × bill_u) / Σ(accounts_u)`
over those utilities, rounded to the nearest integer before display
(`Math.round`), and equals `0` when the account sum is `0`; the unrounded
per-month variant feeding the trend series satisfies the same contract
without the rounding. -/
theorem avgBillWeighted_eq_ratio_or_zero (us : List String) (m : ℕ) :
    (avgBillWeighted us m =
      if (us.map fun u => lookupN accounts u m).sum = 0 then 0
      else jsRound ((us.map fun u => (lookupN accounts u m : ℚ) * (lookupN avgBill u m : ℚ)).sum
        / (((us.map fun u => lookupN accounts u m).sum : ℕ) : ℚ)))
    ∧ (getWeightedAvgBillByMonth m =
      if (utilities.map fun u => lookupN accounts u m).sum = 0 then 0
      else (utilities.map fun u => (lookupN accounts u m : ℚ) * (lookupN avgBill u m : ℚ)).sum
        / (((utilities.map fun u => lookupN accounts u m).sum : ℕ) : ℚ)) := by
  constructor
  · show (if 0 < (us.foldl (fun sum u => sum + lookupN accounts u m) 0) then _ else _) = _
    rw [foldl_add_eq_sum, foldl_add_eq_sum]
    simp only [zero_add]
    rcases Nat.eq_zero_or_pos ((us.map fun u => lookupN accounts u m).sum) with h | h
    · rw [if_neg (by omega), if_pos h]
    · rw [if_pos h, if_neg (by omega)]
  · show (if 0 < (utilities.foldl (fun sum u => sum + lookupN accounts u m) 0) then _ else _) = _
    rw [foldl_add_eq_sum, foldl_add_eq_sum]
    simp only [zero_add]
    rcases Nat.eq_zero_or_pos ((utilities.map fun u => lookupN accounts u m).sum) with h | h
    · rw [if_neg (by omega), if_pos h]
    · rw [if_pos h, if_neg (by omega)]

/-- Claim C9 counterexample: `sumArray` applied to the arrears-customers
series at month index `21` (one past the end of the 21-month window)
returns the value `0` — it does not fail with an error. -/
theorem sumArray_out_of_range_value : sumArray arrearsCustomers 21 = 0 := by decide

/-- Claim C9 (amended): an out-of-range month index is not an error: each
per-utility lookup `obj[u.id]?.[idx] || 0` falls back to `0`, so the
cross-utility sum returns `0`. -/
theorem sumArray_out_of_range_zero (obj : String → List ℕ) (idx : ℕ)
    (h : ∀ u ∈ utilities, (obj u).length ≤ idx) :
    sumArray obj idx = 0 ∧ ∀ u ∈ utilities, lookupN obj u idx = 0 := by
  have hl : ∀ u ∈ utilities, lookupN obj u idx = 0 := by
    intro u hu
    exact List.getD_eq_default _ _ (h u hu)
  refine ⟨?_, hl⟩
  show utilities.foldl _ 0 = 0
  rw [foldl_add_eq_sum]
  simp only [zero_add]
  refine List.sum_eq_zero ?_
  intro x hx
  rcases List.mem_map.mp hx with ⟨u, hu, rfl⟩
  exact hl u hu

/-- Claim C9 witness: the amended theorem applied to the arrears-customers
series (every series has 21 entries) at index 21. -/
theorem sumArray_out_of_range_zero_witness :
    (∀ u ∈ utilities, (arrearsCustomers u).length ≤ 21) ∧ sumArray arrearsCustomers 21 = 0 :=
  ⟨by decide, (sumArray_out_of_range_zero arrearsCustomers 21 (by decide)).1⟩

/-- Claim C2 counterexample: the series `[0,0,0,1,1,1]` has prior 3-month
window `[0,0,0]` of mean `0`, yet `getTrend` classifies it `"up"` with
change `Infinity` — not `Flat` with change `0`: the code has no
division-by-zero guard. -/
theorem getTrend_zero_prior_not_flat :
    (priorWindow [0, 0, 0, 1, 1, 1] 3).sum / 3 = 0 ∧
    getTrend [0, 0, 0, 1, 1, 1] 3 = { direction := "up", change := JsVal.inf } := by
  constructor
  · norm_num [priorWindow]
  · norm_num [getTrend, recentWindow, priorWindow, jsDiv, jsSub, jsMul, jsGtQ, jsLtQ, jsToFixed1]

/-- Claim C2 (amended): on a series of length at least 4 whose prior window
sums to `0`, `getTrend` follows JavaScript division semantics: current mean
`0` gives `NaN` and hence `Flat` (with change `NaN`, not `0`), a positive
current mean gives `Up` with change `Infinity`, and a negative one gives
`Down` with change `-Infinity`. -/
theorem getTrend_zero_prior_mean (data : List ℚ) (h1 : 4 ≤ data.length)
    (h2 : (priorWindow data 3).sum = 0) :
    getTrend data 3 =
      if (recentWindow data 3).sum = 0 then { direction := "flat", change := JsVal.nan }
      else if 0 < (recentWindow data 3).sum then { direction := "up", change := JsVal.inf }
      else { direction := "down", change := JsVal.negInf } := by
  unfold getTrend
  rw [if_neg (by omega)]
  have hq3 : (3 : ℚ) ≠ 0 := by norm_num
  rcases lt_trichotomy ((recentWindow data 3).sum) 0 with h | h | h
  · have hd : (recentWindow data 3).sum / 3 < 0 := div_neg_of_neg_of_pos h (by norm_num)
    rw [if_neg (ne_of_lt h), if_neg (asymm h)]
    norm_num [h2, jsDiv, jsSub, jsMul, jsGtQ, jsLtQ, jsToFixed1, hq3, hd, ne_of_lt hd, asymm hd]
  · rw [if_pos h]
    norm_num [h2, h, jsDiv, jsSub, jsMul, jsGtQ, jsLtQ, jsToFixed1, hq3]
  · have hd : 0 < (recentWindow data 3).sum / 3 := div_pos h (by norm_num)
    rw [if_neg (ne_of_gt h), if_pos h]
    norm_num [h2, jsDiv, jsSub, jsMul, jsGtQ, jsLtQ, jsToFixed1, hq3, hd, ne_of_gt hd]

/-- Claim C2 witness: the amended theorem applied to `[0,0,0,2,2,2]`. -/
theorem getTrend_zero_prior_mean_witness :
    getTrend [0, 0, 0, 2, 2, 2] 3 = { direction := "up", change := JsVal.inf } :=
  (getTrend_zero_prior_mean [0, 0, 0, 2, 2, 2] (by norm_num) (by norm_num [priorWindow])).trans
    (by norm_num [recentWindow])

/-- Claim C3 counterexample: the 5-element series `[100,100,100,0,0]` is
shorter than 6 months, yet `getTrend` does not return `Flat` with change `0`:
the guard only rejects series shorter than 4, and `slice(-6,-3)` silently
truncates the prior window to `[100,100]`, producing `"down"` with change
`-50`. -/
theorem getTrend_short_not_flat :
    ([(100 : ℚ), 100, 100, 0, 0].length < 6) ∧
    getTrend [100, 100, 100, 0, 0] 3 = { direction := "down", change := JsVal.fin (-50) } := by
  constructor
  · norm_num
  · norm_num [getTrend, recentWindow, priorWindow, jsDiv, jsSub, jsMul, jsGtQ, jsLtQ, jsToFixed1]

/-- Claim C3 (amended): a series with fewer than 4 elements (not 6) yields
`Flat` with change `0`; a series with at least 6 elements yields the
spec's computation — current mean over the last 3 months, prior mean over
the 3 months immediately preceding them, `change% = (cur − prior)/prior × 100`
(stated for a nonzero prior sum; see the zero-prior theorem otherwise),
classified `Up` iff `change% > 2`, `Down` iff `change% < −2`, else `Flat`,
the reported change rounded to one decimal by `toFixed(1)`.  Series of
length 4 or 5 fall in neither case: their prior window is truncated. -/
theorem getTrend_guard_and_spec (data : List ℚ) :
    (data.length < 4 → getTrend data 3 = { direction := "flat", change := JsVal.fin 0 })
    ∧ (6 ≤ data.length →
      ((data.drop (data.length - 6)).take 3).sum ≠ 0 →
      getTrend data 3 =
        { direction :=
            if 2 < ((data.drop (data.length - 3)).sum / 3
                - ((data.drop (data.length - 6)).take 3).sum / 3)
                / (((data.drop (data.length - 6)).take 3).sum / 3) * 100 then "up"
            else if ((data.drop (data.length - 3)).sum / 3
                - ((data.drop (data.length - 6)).take 3).sum / 3)
                / (((data.drop (data.length - 6)).take 3).sum / 3) * 100 < -2 then "down"
            else "flat",
          change := JsVal.fin (⌊((data.drop (data.length - 3)).sum / 3
                - ((data.drop (data.length - 6)).take 3).sum / 3)
                / (((data.drop (data.length - 6)).take 3).sum / 3) * 100 * 10 + 1 / 2⌋ / 10) }) := by
  constructor
  · intro h
    unfold getTrend
    rw [if_pos (by omega)]
  · intro h6 hpm
    have hw : priorWindow data 3 = (data.drop (data.length - 6)).take 3 := by
      unfold priorWindow
      rw [List.drop_take]
      congr 1
      omega
    have hq3 : (3 : ℚ) ≠ 0 := by norm_num
    have hpm3 : ((data.drop (data.length - 6)).take 3).sum / 3 ≠ 0 := div_ne_zero hpm hq3
    unfold getTrend
    rw [if_neg (by omega), hw]
    show Trend.mk _ _ = _
    unfold recentWindow
    norm_num [jsDiv, jsSub, jsMul, jsGtQ, jsLtQ, jsToFixed1, hq3, hpm3]

/-- Claim C3 witness: the amended theorem applied to a 3-element series
(shorter than 4) and to the spec's 9-element scenario
`[100,100,100,100,100,100,130,130,130]`, whose prior mean is 100, current
mean 130, change 30%, classification `Up`. -/
theorem getTrend_guard_and_spec_witness :
    getTrend [1, 2, 3] 3 = { direction := "flat", change := JsVal.fin 0 } ∧
    getTrend [100, 100, 100, 100, 100, 100, 130, 130, 130] 3 =
      { direction := "up", change := JsVal.fin 30 } :=
  ⟨(getTrend_guard_and_spec [1, 2, 3]).1 (by norm_num),
    ((getTrend_guard_and_spec _).2 (by norm_num) (by norm_num)).trans (by norm_num)⟩

set_option maxRecDepth 8000

/-- Claim C10: a ZIP-level record enters the active geographic set (the
sorted `allGeoData`, from which projection, ranking and the color-scale
population all derive) exactly when its utility passes the utility filter,
the record belongs to that utility's ZIP list, its snapshot for the selected
month exists with strictly more than 20 active accounts, and its value is
the selected metric of that record; records failing the snapshot test are
silently absent. -/
theorem allGeoData_membership (gu : String) (gm : GeoMonth) (met : GeoMetric) (x : GeoDatum) :
    x ∈ allGeoData gu gm met ↔
      x.utility ∈ utilKeysFor gu ∧ x.point ∈ geoZipData x.utility ∧
      (∃ s, x.point.snap gm = some s ∧ 20 < s.active) ∧
      x.value = getGeoMetricValue x.point gm met := by
  rw [allGeoData, List.mem_insertionSort]
  unfold allGeoDataUnsorted
  simp only [List.mem_flatMap, List.mem_map, List.mem_filter]
  constructor
  · rintro ⟨uk, huk, d, ⟨hd, hact⟩, rfl⟩
    refine ⟨huk, hd, ?_, rfl⟩
    unfold activeOver20 at hact
    cases hsnap : d.snap gm with
    | none => rw [hsnap] at hact; simp at hact
    | some s => rw [hsnap] at hact; exact ⟨s, rfl, by simpa using hact⟩
  · rintro ⟨huk, hd, ⟨s, hs, hsa⟩, hval⟩
    refine ⟨x.utility, huk, x.point, ⟨hd, ?_⟩, ?_⟩
    · unfold activeOver20
      rw [hs]
      simpa using hsa
    · cases x with
      | mk point utility value => simpa using hval.symm

/-- Claim C4 counterexample: for Pacific Power, April, metric
`disconnections`, the sorted ranking holds the tied pair (value 23) with
ZIP `"97333"` before ZIP `"97330"` — the stable sort keeps the source
insertion order for ties, which here is descending by ZIP, so ties are not
broken by ZIP code ascending. -/
theorem ranking_tie_cex :
    (((allGeoData "pac" GeoMonth.apr GeoMetric.disconnections).map
        (fun d => (d.point.zip, d.value))).drop 18).take 2 = [("97333", 23), ("97330", 23)]
    ∧ ("97330" : String) < "97333" := by
  constructor
  · norm_num [allGeoData, allGeoDataUnsorted, utilKeysFor, geoZipData, pacZips, activeOver20,
      GeoRecord.snap, getGeoMetricValue, List.insertionSort, List.orderedInsert, valueDesc]
  · rw [String.lt_iff_toList_lt]
    decide

/-- Claim C4 (amended): the ranking is the input point set sorted descending
by metric value (a permutation, pairwise ordered), with ties kept in
insertion order by the stable sort rather than broken by ZIP; the
region-filtered projected list inherits the same order, and the top-50
truncation is a prefix that leaves the underlying list intact (`slice`
copies, it does not mutate). -/
theorem allGeoData_sorted_desc (gu : String) (gm : GeoMonth) (met : GeoMetric) (b : Region) :
    (allGeoData gu gm met).Perm (allGeoDataUnsorted gu gm met)
    ∧ (allGeoData gu gm met).Sorted valueDesc
    ∧ ((filteredGeoData b gu gm met).map ProjPoint.datum).Sorted valueDesc
    ∧ (allGeoData gu gm met).take 50 ++ (allGeoData gu gm met).drop 50 = allGeoData gu gm met := by
  refine ⟨List.perm_insertionSort _ _, List.sorted_insertionSort _ _, ?_,
    List.take_append_drop _ _⟩
  have hmap : (filteredGeoData b gu gm met).map ProjPoint.datum
      = (allGeoData gu gm met).filter (inBoundsB b) := by
    calc (filteredGeoData b gu gm met).map ProjPoint.datum
        = ((allGeoData gu gm met).filter (inBoundsB b)).map (fun d => d) := by
          rw [filteredGeoData, List.map_map]
          rfl
      _ = (allGeoData gu gm met).filter (inBoundsB b) := by
          simp
  rw [hmap]
  exact (List.sorted_insertionSort _ _).filter _

/-- Claim C5 counterexample: with utility PGE, June, metric accounts in
arrears, the color-scale maximum is 4846 (ZIP 97301, Salem) even though
every point visible under the Portland Metro region filter has a strictly
smaller value: the min/max are computed on `allGeoData` before region
filtering, so changing the region does not change them even when the
region filter removes the extremal points. -/
theorem geoScale_range_cex :
    geoRegions "portland" = some ⟨"Portland Metro", 45.30, 45.75, -123.15, -122.25⟩
    ∧ geoMaxVal "pge" GeoMonth.jun GeoMetric.arrears_count = 4846
    ∧ (filteredGeoData ⟨"Portland Metro", 45.30, 45.75, -123.15, -122.25⟩ "pge" GeoMonth.jun
        GeoMetric.arrears_count).all (fun p => decide (p.datum.value < 4846)) = true := by
  refine ⟨rfl, ?_, ?_⟩
  · norm_num [geoMaxVal, geoValues, allGeoData, allGeoDataUnsorted, utilKeysFor, geoZipData,
      pgeZips, activeOver20, GeoRecord.snap, getGeoMetricValue, List.insertionSort,
      List.orderedInsert, valueDesc]
  · norm_num [filteredGeoData, inBoundsB, xScale, yScale, mapWidth, mapHeight, allGeoData,
      allGeoDataUnsorted, utilKeysFor, geoZipData, pgeZips, activeOver20, GeoRecord.snap,
      getGeoMetricValue, List.insertionSort, List.orderedInsert, valueDesc]

/-- Claim C5 (amended): the color-scale minimum and maximum are the least
and greatest of the positive metric values of the utility- and
month-filtered population (`allGeoData`) — the region filter does not enter:
a value is in the scale population exactly when it is positive and attained
by some record of the unsorted utility/month-filtered set. -/
theorem geoScale_over_allGeoData (gu : String) (gm : GeoMonth) (met : GeoMetric)
    (h : geoValues gu gm met ≠ []) :
    (geoMinVal gu gm met ∈ geoValues gu gm met ∧
      ∀ v ∈ geoValues gu gm met, geoMinVal gu gm met ≤ v)
    ∧ (geoMaxVal gu gm met ∈ geoValues gu gm met ∧
      ∀ v ∈ geoValues gu gm met, v ≤ geoMaxVal gu gm met)
    ∧ ∀ v : ℚ, v ∈ geoValues gu gm met ↔
        (0 < v ∧ ∃ d ∈ allGeoDataUnsorted gu gm met, d.value = v) := by
  rcases hv : geoValues gu gm met with _ | ⟨w, ws⟩
  · exact absurd hv h
  have hmin : geoMinVal gu gm met = ws.foldl min w := by
    unfold geoMinVal
    rw [hv]
  have hmax : geoMaxVal gu gm met = ws.foldl max w := by
    unfold geoMaxVal
    rw [hv]
  refine ⟨⟨?_, ?_⟩, ⟨?_, ?_⟩, ?_⟩
  · rw [hmin]
    exact foldl_min_mem ws w
  · intro v hvv
    rw [hmin]
    exact foldl_min_le ws w v hvv
  · rw [hmax]
    exact foldl_max_mem ws w
  · intro v hvv
    rw [hmax]
    exact le_foldl_max ws w v hvv
  · intro v
    rw [← hv]
    unfold geoValues
    rw [List.mem_filter]
    simp only [List.mem_map, allGeoData, List.mem_insertionSort, decide_eq_true_eq]
    constructor
    · rintro ⟨⟨d, hd, rfl⟩, hpos⟩
      exact ⟨hpos, d, hd, rfl⟩
    · rintro ⟨hpos, d, hd, rfl⟩
      exact ⟨⟨d, hd, rfl⟩, hpos⟩

/-- Claim C5 witness: the amended theorem applied to Idaho Power, April,
metric disconnections, whose positive-value population is nonempty. -/
theorem geoScale_over_allGeoData_witness :
    geoValues "ipco" GeoMonth.apr GeoMetric.disconnections ≠ [] ∧
    geoMinVal "ipco" GeoMonth.apr GeoMetric.disconnections ∈
      geoValues "ipco" GeoMonth.apr GeoMetric.disconnections := by
  have hne : geoValues "ipco" GeoMonth.apr GeoMetric.disconnections ≠ [] := by
    norm_num [geoValues, allGeoData, allGeoDataUnsorted, utilKeysFor, geoZipData, ipcoZips,
      activeOver20, GeoRecord.snap, getGeoMetricValue, List.insertionSort, List.orderedInsert,
      valueDesc]
    exact List.cons_ne_nil _ _
  exact ⟨hne, (geoScale_over_allGeoData "ipco" GeoMonth.apr GeoMetric.disconnections hne).1.1⟩

/-- Claim C6 counterexample: for Idaho Power, April, metric
disconnections, the value `0` is carried by rendered points (it is in
`allGeoData`), yet its normalization parameter is `t = (0 − 1)/(41 − 1) =
−1/40 < 0`: `t` is not clamped to `[0,1]`. -/
theorem getGeoT_not_clamped_cex :
    (0 : ℚ) ∈ (allGeoData "ipco" GeoMonth.apr GeoMetric.disconnections).map (fun d => d.value)
    ∧ getGeoT "ipco" GeoMonth.apr GeoMetric.disconnections 0 = -1 / 40
    ∧ getGeoT "ipco" GeoMonth.apr GeoMetric.disconnections 0 < 0 := by
  refine ⟨?_, ?_, ?_⟩
  · norm_num [allGeoData, allGeoDataUnsorted, utilKeysFor, geoZipData, ipcoZips, activeOver20,
      GeoRecord.snap, getGeoMetricValue, List.insertionSort, List.orderedInsert, valueDesc]
  · norm_num [getGeoT, geoMinVal, geoMaxVal, geoValues, allGeoData, allGeoDataUnsorted,
      utilKeysFor, geoZipData, ipcoZips, activeOver20, GeoRecord.snap, getGeoMetricValue,
      List.insertionSort, List.orderedInsert, valueDesc]
  · norm_num [getGeoT, geoMinVal, geoMaxVal, geoValues, allGeoData, allGeoDataUnsorted,
      utilKeysFor, geoZipData, ipcoZips, activeOver20, GeoRecord.snap, getGeoMetricValue,
      List.insertionSort, List.orderedInsert, valueDesc]

/-- Claim C6 (amended): when `max = min` (and whenever the scale is not
strictly increasing) `t = 0` with no division by zero; for values inside
`[min, max]` the normalization `t = (value − min)/(max − min)` lies in
`[0,1]`; but values below `min` — including the values `≤ 0` excluded from
the range computation — produce `t < 0`: no clamping is applied. -/
theorem getGeoT_behaviour (gu : String) (gm : GeoMonth) (met : GeoMetric) (v : ℚ) :
    (geoMinVal gu gm met = geoMaxVal gu gm met → getGeoT gu gm met v = 0)
    ∧ (geoMinVal gu gm met ≤ v → v ≤ geoMaxVal gu gm met →
        0 ≤ getGeoT gu gm met v ∧ getGeoT gu gm met v ≤ 1)
    ∧ (geoMinVal gu gm met < geoMaxVal gu gm met → v < geoMinVal gu gm met →
        getGeoT gu gm met v < 0) := by
  refine ⟨?_, ?_, ?_⟩
  · intro h
    unfold getGeoT
    rw [if_neg (by rw [h]; exact lt_irrefl _)]
  · intro h1 h2
    unfold getGeoT
    split
    · next hlt =>
      constructor
      · exact div_nonneg (by linarith) (by linarith)
      · rw [div_le_one (by linarith)]
        linarith
    · exact ⟨le_refl 0, by norm_num⟩
  · intro hlt hv
    unfold getGeoT
    rw [if_pos hlt]
    exact div_neg_of_neg_of_pos (by linarith) (by linarith)

/-- Claim C6 witness: the amended theorem applied to Idaho Power, April,
disconnections (`min = 1`, `max = 41`) at the in-range value `5`. -/
theorem getGeoT_behaviour_witness :
    geoMinVal "ipco" GeoMonth.apr GeoMetric.disconnections ≤ 5 ∧
    (5 : ℚ) ≤ geoMaxVal "ipco" GeoMonth.apr GeoMetric.disconnections ∧
    0 ≤ getGeoT "ipco" GeoMonth.apr GeoMetric.disconnections 5 ∧
    getGeoT "ipco" GeoMonth.apr GeoMetric.disconnections 5 ≤ 1 := by
  have hmin : geoMinVal "ipco" GeoMonth.apr GeoMetric.disconnections = 1 := by
    norm_num [geoMinVal, geoValues, allGeoData, allGeoDataUnsorted, utilKeysFor, geoZipData,
      ipcoZips, activeOver20, GeoRecord.snap, getGeoMetricValue, List.insertionSort,
      List.orderedInsert, valueDesc]
  have hmax : geoMaxVal "ipco" GeoMonth.apr GeoMetric.disconnections = 41 := by
    norm_num [geoMaxVal, geoValues, allGeoData, allGeoDataUnsorted, utilKeysFor, geoZipData,
      ipcoZips, activeOver20, GeoRecord.snap, getGeoMetricValue, List.insertionSort,
      List.orderedInsert, valueDesc]
  refine ⟨by rw [hmin]; norm_num, by rw [hmax]; norm_num, ?_⟩
  exact (getGeoT_behaviour "ipco" GeoMonth.apr GeoMetric.disconnections 5).2.1
    (by rw [hmin]; norm_num) (by rw [hmax]; norm_num)

/-- Claim C7: on any region with a nondegenerate bounding box, `xScale` and
`yScale` are exactly the spec formulas with `W = 850`, `H = 520`,
`margin = 30`; boundary coordinates map exactly to the canvas margins; and a
point is in the projected set iff it is an active record inside the bounding
box, in which case its coordinates are `xScale`/`yScale` of its
longitude/latitude — records outside the box are excluded entirely, not
clamped. -/
theorem projection_spec (b : Region) (h1 : b.lngMin ≠ b.lngMax) (h2 : b.latMin ≠ b.latMax) :
    (∀ lng : ℚ, xScale b lng = (lng - b.lngMin) / (b.lngMax - b.lngMin) * (850 - 2 * 30) + 30)
    ∧ (∀ lat : ℚ,
        yScale b lat = 520 - 30 - (lat - b.latMin) / (b.latMax - b.latMin) * (520 - 2 * 30))
    ∧ xScale b b.lngMin = 30 ∧ xScale b b.lngMax = 850 - 30
    ∧ yScale b b.latMin = 520 - 30 ∧ yScale b b.latMax = 30
    ∧ ∀ (gu : String) (gm : GeoMonth) (met : GeoMetric) (p : ProjPoint),
        p ∈ filteredGeoData b gu gm met ↔
          ∃ d ∈ allGeoData gu gm met,
            (b.latMin ≤ d.point.lat ∧ d.point.lat ≤ b.latMax ∧
             b.lngMin ≤ d.point.lng ∧ d.point.lng ≤ b.lngMax) ∧
            p = ⟨d, xScale b d.point.lng, yScale b d.point.lat⟩ := by
  have hlng : b.lngMax - b.lngMin ≠ 0 := sub_ne_zero.mpr (Ne.symm h1)
  have hlat : b.latMax - b.latMin ≠ 0 := sub_ne_zero.mpr (Ne.symm h2)
  refine ⟨?_, ?_, ?_, ?_, ?_, ?_, ?_⟩
  · intro lng
    unfold xScale mapWidth
    norm_num
  · intro lat
    unfold yScale mapHeight
    norm_num
  · unfold xScale
    rw [sub_self, zero_div, zero_mul, zero_add]
  · unfold xScale mapWidth
    rw [div_self hlng]
    norm_num
  · unfold yScale
    rw [sub_self, zero_div, zero_mul, sub_zero]
    norm_num [mapHeight]
  · unfold yScale mapHeight
    rw [div_self hlat]
    norm_num
  · intro gu gm met p
    unfold filteredGeoData
    rw [List.mem_map]
    constructor
    · rintro ⟨d, hd, rfl⟩
      rw [List.mem_filter] at hd
      refine ⟨d, hd.1, ?_, rfl⟩
      have := hd.2
      unfold inBoundsB at this
      simp only [Bool.and_eq_true, decide_eq_true_eq] at this
      tauto
    · rintro ⟨d, hd, hbox, rfl⟩
      refine ⟨d, ?_, rfl⟩
      rw [List.mem_filter]
      refine ⟨hd, ?_⟩
      unfold inBoundsB
      simp only [Bool.and_eq_true, decide_eq_true_eq]
      tauto

/-- Claim C7 witness: the theorem applied to the Portland Metro region,
whose bounding box is nondegenerate; its east and north edges map to
`x = 850 − 30` and `y = 30`. -/
theorem projection_spec_witness :
    ((-123.15 : ℚ) ≠ -122.25) ∧ ((45.30 : ℚ) ≠ 45.75) ∧
    xScale ⟨"Portland Metro", 45.30, 45.75, -123.15, -122.25⟩ (-122.25) = 850 - 30 ∧
    yScale ⟨"Portland Metro", 45.30, 45.75, -123.15, -122.25⟩ 45.75 = 30 := by
  have h := projection_spec ⟨"Portland Metro", 45.30, 45.75, -123.15, -122.25⟩
    (by norm_num) (by norm_num)
  exact ⟨by norm_num, by norm_num, h.2.2.2.1, h.2.2.2.2.2.1⟩

/-- Claim C8 counterexample: on a zero-width region the projector does not
signal any `InvalidRegion` error — it is a total function that divides by
zero under JavaScript semantics and returns `Infinity` for a longitude east
of the collapsed box. -/
theorem degenerate_region_no_error_cex :
    xScaleJs ⟨"degenerate", 45, 45, -122, -122⟩ (-121) = JsVal.inf := by
  norm_num [xScaleJs, jsDiv, jsSub, jsMul, jsAdd, mapWidth]

/-- Claim C8 (amended): the projector performs no degenerate-region check.
Every region of the catalog `geoRegions` is nondegenerate, so the check
never fires in the shipped configuration; on a hypothetical degenerate
region the scales return `NaN` on the collapsed boundary and signed
infinities elsewhere instead of failing fast; on nondegenerate regions the
JavaScript-semantics scales agree with the exact rational ones. -/
theorem degenerate_region_behaviour :
    (∀ (key : String) (r : Region), geoRegions key = some r →
      r.latMin < r.latMax ∧ r.lngMin < r.lngMax)
    ∧ (∀ b : Region, b.lngMax = b.lngMin → ∀ lng : ℚ,
        xScaleJs b lng = if lng = b.lngMin then JsVal.nan
          else if b.lngMin < lng then JsVal.inf else JsVal.negInf)
    ∧ (∀ b : Region, b.latMax = b.latMin → ∀ lat : ℚ,
        yScaleJs b lat = if lat = b.latMin then JsVal.nan
          else if b.latMin < lat then JsVal.negInf else JsVal.inf)
    ∧ (∀ b : Region, b.lngMax ≠ b.lngMin → ∀ lng : ℚ, xScaleJs b lng = .fin (xScale b lng))
    ∧ (∀ b : Region, b.latMax ≠ b.latMin → ∀ lat : ℚ, yScaleJs b lat = .fin (yScale b lat)) := by
  refine ⟨?_, ?_, ?_, ?_, ?_⟩
  · intro key r h
    unfold geoRegions at h
    split at h <;> simp_all <;> constructor <;> norm_num [← h]
  · intro b hb lng
    unfold xScaleJs
    rw [hb]
    rcases lt_trichotomy lng b.lngMin with h | h | h
    · rw [if_neg (ne_of_lt h), if_neg (asymm h)]
      norm_num [jsDiv, jsSub, jsMul, jsAdd, mapWidth, sub_neg.mpr h, ne_of_lt (sub_neg.mpr h),
        asymm (sub_neg.mpr h)]
    · rw [if_pos h]
      norm_num [h, jsDiv, jsSub, jsMul, jsAdd]
    · rw [if_neg (ne_of_gt h), if_pos h]
      norm_num [jsDiv, jsSub, jsMul, jsAdd, mapWidth, sub_pos.mpr h, ne_of_gt (sub_pos.mpr h)]
  · intro b hb lat
    unfold yScaleJs
    rw [hb]
    rcases lt_trichotomy lat b.latMin with h | h | h
    · rw [if_neg (ne_of_lt h), if_neg (asymm h)]
      norm_num [jsDiv, jsSub, jsMul, jsAdd, mapHeight, sub_neg.mpr h, ne_of_lt (sub_neg.mpr h),
        asymm (sub_neg.mpr h)]
    · rw [if_pos h]
      norm_num [h, jsDiv, jsSub, jsMul, jsAdd]
    · rw [if_neg (ne_of_gt h), if_pos h]
      norm_num [jsDiv, jsSub, jsMul, jsAdd, mapHeight, sub_pos.mpr h, ne_of_gt (sub_pos.mpr h)]
  · intro b hb lng
    have hd : b.lngMax - b.lngMin ≠ 0 := sub_ne_zero.mpr hb
    norm_num [xScaleJs, xScale, jsDiv, jsSub, jsMul, jsAdd, hd]
  · intro b hb lat
    have hd : b.latMax - b.latMin ≠ 0 := sub_ne_zero.mpr hb
    norm_num [yScaleJs, yScale, jsDiv, jsSub, jsMul, jsAdd, hd]

/-- Claim C8 witness: the amended theorem applied to a zero-height region
at latitude 45, north of the collapsed box. -/
theorem degenerate_region_behaviour_witness :
    ((44 : ℚ) = 44) ∧
    yScaleJs ⟨"degenerate south", 44, 44, -120, -119⟩ 45 = JsVal.negInf := by
  refine ⟨rfl, ?_⟩
  have h := (degenerate_region_behaviour).2.2.1 ⟨"degenerate south", 44, 44, -120, -119⟩ rfl 45
  rw [h]
  norm_num
